import Mathlib

/-!
Shallow embedding of the osfs regular-file data path (src/file.c):
`osfs_read` and `osfs_write`, which map byte-range requests on a file
onto a single fixed-size storage block.

Modelling conventions:
* `loff_t` (the position cursor `*ppos`) is an `Int`; `size_t` values are
  `Nat`, with the C unsigned 64-bit wraparound written as explicit
  `% 18446744073709551616` exactly where the C performs unsigned
  arithmetic or an unsigned conversion.  `ssize_t` return values are
  `Int`, obtained from a `size_t` value by `toSSize` (the two's-complement
  reinterpretation the C `return bytes_written;` performs).
* The storage region (`sb_info->data_blocks`) is a byte map `Int → Nat`
  indexed by absolute byte offset (the C computes `data_blocks +
  i_block * BLOCK_SIZE + *ppos`, a pointer offset that a negative `*ppos`
  can drive below the block, hence the `Int` index).
* The user buffer handed to `osfs_write` is a byte map `Nat → Nat`;
  `osfs_read` returns the list of bytes it copied out to user space.
* The two fallible user-space copy primitives (`copy_to_user`,
  `copy_from_user`) and the clock (`current_time`) are external; each
  call's outcome enters as an explicit argument (`ctu_fail` / `cfu_fail`
  booleans, timestamps `t1`, `t2` for the two `current_time` calls in
  `osfs_write`).
* The block allocator `osfs_alloc_data_block` is external to the fragment.
  Modelled from the spec: it either supplies a block index through its
  out-parameter (`alloc = some b`) or fails with no free block
  (`alloc = none`), in which case the out-parameter `i_block` is left
  unchanged.  `osfs_write` (line 68) ignores its return status, which the
  embedding reproduces: the `alloc` argument only determines what ends up
  in `i_block`.
-/

/-- `BLOCK_SIZE` of the osfs volume (4096 bytes per block). -/
def BLOCK_SIZE : Nat := 4096

/-- The errno returned via `-EFAULT` when a user-space copy fails. -/
def EFAULT : Int := 14

/-- Modulus of `size_t` / unsigned 64-bit arithmetic: 2 ^ 64. -/
def U64 : Int := 18446744073709551616

/-- Modulus of the `(uint32_t)` cast on line 85 of src/file.c: 2 ^ 32. -/
def U32 : Int := 4294967296

/-- Reinterpretation of a `size_t` value as `ssize_t` (two's complement):
values at or above 2 ^ 63 become negative. -/
def toSSize (n : Nat) : Int :=
  if (n : Int) % U64 < 9223372036854775808 then (n : Int) % U64
  else (n : Int) % U64 - U64

/-- Absolute byte offset `i_block * BLOCK_SIZE + *ppos` into the storage
region (src/file.c lines 36 and 77). -/
def byte_off (blk : Nat) (p : Int) : Int :=
  (blk : Int) * (BLOCK_SIZE : Int) + p

/-- Lines 33–34 of src/file.c: `if (*ppos + len > osfs_inode->i_size)
len = osfs_inode->i_size - *ppos;`.  The comparison is performed in
unsigned 64-bit arithmetic (`loff_t + size_t` against the promoted
`i_size`), and the assigned signed difference is converted back to
`size_t`. -/
def read_clamp (sz : Nat) (p : Int) (len : Nat) : Nat :=
  if (sz : Int) < (p + (len : Int)) % U64 then
    (((sz : Int) - p) % U64).toNat
  else len

/-- Lines 72–74 of src/file.c: `if (*ppos + len > BLOCK_SIZE)
len = BLOCK_SIZE - *ppos;`, with the same unsigned 64-bit comparison and
`size_t` conversion of the signed difference. -/
def write_clip (p : Int) (len : Nat) : Nat :=
  if (BLOCK_SIZE : Int) < (p + (len : Int)) % U64 then
    (((BLOCK_SIZE : Int) - p) % U64).toNat
  else len

/-- Lines 67–69 of src/file.c: when `i_block == 0` the external allocator
is invoked on `&osfs_inode->i_block`; its status is ignored.  `alloc` is
the allocator's outcome (`none` = failure, leaving `i_block` unchanged,
i.e. still 0). -/
def alloc_step (alloc : Option Nat) (blk : Nat) : Nat :=
  if blk = 0 then alloc.getD blk else blk

/-- The state `osfs_read`/`osfs_write` touch: the `osfs_inode` fields the
fragment uses (`i_block`, `i_blocks`, `i_size`, `__i_mtime`, `__i_ctime`),
the mirrored VFS `inode` fields set on lines 86 and 89, the position
cursor `*ppos`, and the volume's storage region `sb_info->data_blocks`.
Timestamps are abstract `Int`s. -/
structure OsfsState where
  i_block : Nat
  i_blocks : Nat
  i_size : Nat
  i_mtime : Int
  i_ctime : Int
  vfs_size : Nat
  vfs_mtime : Int
  vfs_ctime : Int
  ppos : Int
  data : Int → Nat

/-- Embedding of `osfs_read` (src/file.c lines 19–44).  Arguments:
`ctu_fail` is the outcome of the one `copy_to_user` call (`true` = the
copy fails and the C returns `-EFAULT`), `len` the requested `size_t`
length.  Returns the `ssize_t` result, the bytes copied to the user
buffer, and the state after the call.

Line-by-line: line 27 returns 0 when `i_blocks == 0`; line 30 returns 0
when `*ppos >= i_size` (a signed comparison after promotion to `loff_t`);
lines 33–34 are `read_clamp`; line 36 addresses
`data_blocks + i_block * BLOCK_SIZE + *ppos`; lines 37–38 return
`-EFAULT` if the copy fails; lines 40–43 advance `*ppos` by the copied
length and return it. -/
def osfs_read (ctu_fail : Bool) (len : Nat) (s : OsfsState) :
    Int × List Nat × OsfsState :=
  if s.i_blocks = 0 then (0, [], s)
  else if (s.i_size : Int) ≤ s.ppos then (0, [], s)
  else if ctu_fail then (-EFAULT, [], s)
  else
    (toSSize (read_clamp s.i_size s.ppos len),
     (List.range (read_clamp s.i_size s.ppos len)).map
       (fun i => s.data (byte_off s.i_block s.ppos + (i : Int))),
     { s with ppos := s.ppos + ((read_clamp s.i_size s.ppos len : Nat) : Int) })

/-- Embedding of `osfs_write` (src/file.c lines 59–93).  Arguments:
`alloc` is the block allocator's outcome for this call (consulted only
when `i_block = 0`, see `alloc_step`), `cfu_fail` the outcome of the
`copy_from_user` call, `t1` the value of the `current_time` call on
line 88, `t2` that of line 89, `buf` the user source buffer, `len` the
requested `size_t` length.  Returns the `ssize_t` result and the state
after the call.

Line-by-line: lines 67–69 are `alloc_step`; lines 72–74 are `write_clip`;
line 77 addresses `data_blocks + i_block * BLOCK_SIZE + *ppos` (with the
possibly freshly allocated `i_block`); lines 78–79 return `-EFAULT` on
copy failure (the already-performed allocation is kept); lines 81–82
advance `*ppos`; line 85 sets `i_size = max(i_size, (uint32_t)*ppos)`;
lines 86, 88, 89 mirror the size into the VFS inode and stamp the four
timestamp fields; line 92 returns the written length. -/
def osfs_write (alloc : Option Nat) (cfu_fail : Bool) (t1 t2 : Int)
    (buf : Nat → Nat) (len : Nat) (s : OsfsState) : Int × OsfsState :=
  if cfu_fail then (-EFAULT, { s with i_block := alloc_step alloc s.i_block })
  else
    (toSSize (write_clip s.ppos len),
     { s with
        i_block := alloc_step alloc s.i_block
        data := fun o =>
          if byte_off (alloc_step alloc s.i_block) s.ppos ≤ o ∧
             o < byte_off (alloc_step alloc s.i_block) s.ppos +
                 ((write_clip s.ppos len : Nat) : Int) then
            buf (o - byte_off (alloc_step alloc s.i_block) s.ppos).toNat
          else s.data o
        ppos := s.ppos + ((write_clip s.ppos len : Nat) : Int)
        i_size := max s.i_size
          (((s.ppos + ((write_clip s.ppos len : Nat) : Int)) % U32)).toNat
        vfs_size := max s.i_size
          (((s.ppos + ((write_clip s.ppos len : Nat) : Int)) % U32)).toNat
        i_mtime := t1
        i_ctime := t1
        vfs_mtime := t2
        vfs_ctime := t2 })

/-- The metadata invariant of the spec's data model (§3): an unallocated
file has size 0, and the size never exceeds the single-block capacity. -/
def metaInv (s : OsfsState) : Prop :=
  (s.i_block = 0 → s.i_size = 0) ∧ s.i_size ≤ BLOCK_SIZE

instance (s : OsfsState) : Decidable (metaInv s) := by
  unfold metaInv; infer_instance

/-- A file state over zeroed storage and zeroed timestamps: `blk` is
`i_block`, `blks` is `i_blocks`, `sz` is `i_size`, `p` the position
cursor. -/
def mkState (blk blks sz : Nat) (p : Int) : OsfsState :=
  { i_block := blk, i_blocks := blks, i_size := sz, i_mtime := 0,
    i_ctime := 0, vfs_size := sz, vfs_mtime := 0, vfs_ctime := 0,
    ppos := p, data := fun _ => 0 }

/-- A freshly created, never-written file: no block, size 0, cursor 0. -/
def s_fresh : OsfsState := mkState 0 0 0 0

/-! ### Helper lemmas about the clipping arithmetic -/

/-- In the caller regime `0 ≤ *ppos ≤ BLOCK_SIZE` with no unsigned wrap,
the write-path clipping computes `min len (BLOCK_SIZE - *ppos)`. -/
lemma write_clip_eq (p : Int) (len : Nat) (h0 : 0 ≤ p)
    (hp : p ≤ (BLOCK_SIZE : Int)) (hu : p + (len : Int) < U64) :
    ((write_clip p len : Nat) : Int) = min (len : Int) ((BLOCK_SIZE : Int) - p) := by
  simp only [write_clip, BLOCK_SIZE, U64] at hp hu ⊢
  split <;> omega

/-- In the caller regime `0 ≤ *ppos < i_size` with no unsigned wrap, the
read-path clamping computes `min len (i_size - *ppos)`. -/
lemma read_clamp_eq (sz : Nat) (p : Int) (len : Nat) (h0 : 0 ≤ p)
    (hp : p < (sz : Int)) (hsz : (sz : Int) < U64)
    (hu : p + (len : Int) < U64) :
    ((read_clamp sz p len : Nat) : Int) = min (len : Int) ((sz : Int) - p) := by
  simp only [read_clamp, U64] at hsz hu ⊢
  split <;> omega

/-- A `size_t` value below 2 ^ 63 reads back unchanged as `ssize_t`. -/
lemma toSSize_small (n : Nat) (h : (n : Int) < 9223372036854775808) :
    toSSize n = (n : Int) := by
  simp only [toSSize, U64]
  split <;> omega

/-- Whatever the position and requested length, the value
`(uint32_t)(*ppos + clipped_len)` that line 85 feeds into `max` is at
most `BLOCK_SIZE`. -/
lemma write_size_arg_le (p : Int) (len : Nat) :
    ((p + ((write_clip p len : Nat) : Int)) % U32).toNat ≤ BLOCK_SIZE := by
  simp only [write_clip, BLOCK_SIZE, U32, U64]
  split <;> omega


/-! ### Claim theorems -/

/-- C1: the round-trip property fails on the code.  On a freshly created
file (`i_block = 0`, `i_blocks = 0`, `i_size = 0`), writing the byte 42
at position 0 succeeds (the allocator supplies block 3, the copy
succeeds, the write returns 1) — but reading 1 byte back from position 0
returns 0 bytes and an empty buffer instead of `[42]`: `osfs_write`
allocates and checks `i_block`, while `osfs_read` gates on the separate
`i_blocks` field, which no code in the fragment ever sets. -/
theorem c1_roundtrip_fails_on_fresh_file :
    (osfs_write (some 3) false 5 5 (fun _ => 42) 1 s_fresh).1 = 1 ∧
    (osfs_read false 1
      { (osfs_write (some 3) false 5 5 (fun _ => 42) 1 s_fresh).2 with
        ppos := 0 }).1 = 0 ∧
    (osfs_read false 1
      { (osfs_write (some 3) false 5 5 (fun _ => 42) 1 s_fresh).2 with
        ppos := 0 }).2.1 = [] := by decide

/-- C2 (counterexample to the claim as stated): when `copy_from_user`
fails on the first write to a fresh file, the write does return `-EFAULT`,
but the block assignment is NOT unchanged: the allocation performed
before the failed copy is kept (`i_block` goes from 0 to 3). -/
theorem c2_fault_changes_block_assignment :
    (osfs_write (some 3) true 5 5 (fun _ => 7) 10 s_fresh).1 = -EFAULT ∧
    (osfs_write (some 3) true 5 5 (fun _ => 7) 10 s_fresh).2.i_block ≠
      s_fresh.i_block := by decide

/-- C2 (amended): when `copy_from_user` fails, the write returns
`-EFAULT` and the file's size, `modified_at`/`changed_at` timestamps, the
position cursor and the stored data are all unchanged; the block
assignment is unchanged for any file that already had a block — only a
first-write allocation performed in the same call is retained. -/
theorem c2_fault_preserves_state (s : OsfsState) (alloc : Option Nat)
    (t1 t2 : Int) (buf : Nat → Nat) (len : Nat) :
    (osfs_write alloc true t1 t2 buf len s).1 = -EFAULT ∧
    (osfs_write alloc true t1 t2 buf len s).2.i_size = s.i_size ∧
    (osfs_write alloc true t1 t2 buf len s).2.i_mtime = s.i_mtime ∧
    (osfs_write alloc true t1 t2 buf len s).2.i_ctime = s.i_ctime ∧
    (osfs_write alloc true t1 t2 buf len s).2.ppos = s.ppos ∧
    (osfs_write alloc true t1 t2 buf len s).2.data = s.data ∧
    (s.i_block ≠ 0 →
      (osfs_write alloc true t1 t2 buf len s).2.i_block = s.i_block) := by
  refine ⟨rfl, rfl, rfl, rfl, rfl, rfl, fun h => ?_⟩
  simp [osfs_write, alloc_step, h]

/-- C2 (witness): `c2_fault_preserves_state` applied to an allocated file
(`i_block = 2`, size 10, cursor 4) with a failing copy. -/
theorem c2_fault_preserves_state_witness :
    (osfs_write (some 9) true 3 4 (fun _ => 1) 5 (mkState 2 1 10 4)).1 = -EFAULT ∧
    (osfs_write (some 9) true 3 4 (fun _ => 1) 5 (mkState 2 1 10 4)).2.i_size =
      (mkState 2 1 10 4).i_size ∧
    (osfs_write (some 9) true 3 4 (fun _ => 1) 5 (mkState 2 1 10 4)).2.ppos =
      (mkState 2 1 10 4).ppos ∧
    (osfs_write (some 9) true 3 4 (fun _ => 1) 5 (mkState 2 1 10 4)).2.i_block =
      (mkState 2 1 10 4).i_block := by
  have h := c2_fault_preserves_state (mkState 2 1 10 4) (some 9) 3 4 (fun _ => 1) 5
  exact ⟨h.1, h.2.1, h.2.2.2.2.1, h.2.2.2.2.2.2 (by decide)⟩

/-- C3: the code does not handle allocation failure.  On a fresh file,
when the allocator fails to supply a block (`alloc = none`), the write
does NOT fail with an out-of-space error and does NOT leave the metadata
unallocated: it returns 10 (success), leaves `i_block = 0`, sets
`i_size = 10`, and stores the user bytes into block 0 of the volume —
the unchecked `osfs_alloc_data_block` call of src/file.c line 68. -/
theorem c3_alloc_failure_ignored :
    (osfs_write none false 5 5 (fun _ => 7) 10 s_fresh).1 = 10 ∧
    (osfs_write none false 5 5 (fun _ => 7) 10 s_fresh).2.i_block = 0 ∧
    (osfs_write none false 5 5 (fun _ => 7) 10 s_fresh).2.i_size = 10 ∧
    (osfs_write none false 5 5 (fun _ => 7) 10 s_fresh).2.data 0 = 7 := by decide

/-- C4: the code does not reject `position >= BLOCK_SIZE`.  With an
allocated file at position 5000 and a 200-byte request, the write's only
error path is the copy fault (`-EFAULT`); instead of a boundary error it
computes the wrapped `size_t` length `(4096 - 5000) mod 2^64 =
18446744073709550712`, proceeds to the copy (the storage byte at offset
`2 * 4096 + 5000` is overwritten), and returns that length
reinterpreted as the meaningless `ssize_t` value `-904`. -/
theorem c4_no_boundary_rejection :
    (osfs_write (some 9) false 5 5 (fun _ => 7) 200 (mkState 2 1 4096 5000)).1 =
      -904 ∧
    (osfs_write (some 9) false 5 5 (fun _ => 7) 200
      (mkState 2 1 4096 5000)).2.data 13192 = 7 := by decide

/-- C5 (counterexample to the claim as stated): a write does not always
preserve the metadata invariant.  Starting from a fresh file satisfying
the invariant, a 10-byte write during which the allocator fails leaves
`i_block = 0` (unallocated) with `i_size = 10 ≠ 0`. -/
theorem c5_invariant_broken_counterexample :
    metaInv s_fresh ∧
    ¬ metaInv (osfs_write none false 5 5 (fun _ => 7) 10 s_fresh).2 := by decide

/-- C10 (counterexample to the claim as stated): a zero-length write with
a succeeding copy does NOT always leave the size unchanged.  On an
allocated file with `i_size = 10` and cursor 100, `write(len = 0)`
returns 0 and leaves the cursor at 100, but line 85's
`i_size = max(i_size, (uint32_t)*ppos)` grows the size to 100. -/
theorem c10_zero_write_grows_size_counterexample :
    (osfs_write (some 1) false 5 5 (fun _ => 7) 0 (mkState 2 1 10 100)).1 = 0 ∧
    (osfs_write (some 1) false 5 5 (fun _ => 7) 0 (mkState 2 1 10 100)).2.ppos =
      100 ∧
    (osfs_write (some 1) false 5 5 (fun _ => 7) 0 (mkState 2 1 10 100)).2.i_size =
      100 ∧
    (mkState 2 1 10 100).i_size = 10 := by decide

/-! ### Projection lemmas for the successful-copy path of `osfs_write` -/

lemma osfs_write_ok_fst (alloc : Option Nat) (t1 t2 : Int) (buf : Nat → Nat)
    (len : Nat) (s : OsfsState) :
    (osfs_write alloc false t1 t2 buf len s).1 = toSSize (write_clip s.ppos len) := by
  simp [osfs_write]

lemma osfs_write_ok_block (alloc : Option Nat) (t1 t2 : Int) (buf : Nat → Nat)
    (len : Nat) (s : OsfsState) :
    (osfs_write alloc false t1 t2 buf len s).2.i_block = alloc_step alloc s.i_block := by
  simp [osfs_write]

lemma osfs_write_ok_size (alloc : Option Nat) (t1 t2 : Int) (buf : Nat → Nat)
    (len : Nat) (s : OsfsState) :
    (osfs_write alloc false t1 t2 buf len s).2.i_size =
      max s.i_size ((s.ppos + ((write_clip s.ppos len : Nat) : Int)) % U32).toNat := by
  simp [osfs_write]

lemma osfs_write_ok_ppos (alloc : Option Nat) (t1 t2 : Int) (buf : Nat → Nat)
    (len : Nat) (s : OsfsState) :
    (osfs_write alloc false t1 t2 buf len s).2.ppos =
      s.ppos + ((write_clip s.ppos len : Nat) : Int) := by
  simp [osfs_write]

lemma osfs_write_ok_data (alloc : Option Nat) (t1 t2 : Int) (buf : Nat → Nat)
    (len : Nat) (s : OsfsState) :
    (osfs_write alloc false t1 t2 buf len s).2.data = fun o =>
      if byte_off (alloc_step alloc s.i_block) s.ppos ≤ o ∧
         o < byte_off (alloc_step alloc s.i_block) s.ppos +
             ((write_clip s.ppos len : Nat) : Int) then
        buf (o - byte_off (alloc_step alloc s.i_block) s.ppos).toNat
      else s.data o := by
  simp [osfs_write]

lemma osfs_write_ok_mtime (alloc : Option Nat) (t1 t2 : Int) (buf : Nat → Nat)
    (len : Nat) (s : OsfsState) :
    (osfs_write alloc false t1 t2 buf len s).2.i_mtime = t1 := by
  simp [osfs_write]

lemma osfs_write_ok_ctime (alloc : Option Nat) (t1 t2 : Int) (buf : Nat → Nat)
    (len : Nat) (s : OsfsState) :
    (osfs_write alloc false t1 t2 buf len s).2.i_ctime = t1 := by
  simp [osfs_write]

/-- C5 (amended): the metadata invariant is preserved by every read, and
by every write during which the allocator — if it was consulted at all —
supplied a nonzero block index.  (The counterexample shows the unchecked
allocator-failure path breaks it.) -/
theorem c5_invariant_preserved (s : OsfsState) (ctu_fail : Bool) (rlen : Nat)
    (alloc : Option Nat) (cfu_fail : Bool) (t1 t2 : Int)
    (buf : Nat → Nat) (wlen : Nat)
    (hinv : metaInv s)
    (halloc : s.i_block = 0 → ∃ b, alloc = some b ∧ b ≠ 0) :
    metaInv (osfs_read ctu_fail rlen s).2.2 ∧
    metaInv (osfs_write alloc cfu_fail t1 t2 buf wlen s).2 := by
  have hblk : alloc_step alloc s.i_block ≠ 0 := by
    unfold alloc_step
    by_cases h : s.i_block = 0
    · obtain ⟨b, hb, hb0⟩ := halloc h
      simp only [h, if_pos rfl, hb, Option.getD_some]
      exact hb0
    · simp only [if_neg h]
      exact h
  constructor
  · unfold osfs_read
    split
    · exact hinv
    · split
      · exact hinv
      · split
        · exact hinv
        · exact hinv
  · unfold osfs_write
    split
    · exact ⟨fun h => absurd h hblk, hinv.2⟩
    · exact ⟨fun h => absurd h hblk,
        max_le hinv.2 (write_size_arg_le s.ppos wlen)⟩

/-- C5 (witness): `c5_invariant_preserved` at an allocated file with
size 10 and cursor 4, reading 3 bytes and writing 5 bytes. -/
theorem c5_invariant_preserved_witness :
    metaInv (osfs_read false 3 (mkState 2 1 10 4)).2.2 ∧
    metaInv (osfs_write (some 9) false 3 4 (fun _ => 1) 5 (mkState 2 1 10 4)).2 :=
  c5_invariant_preserved (mkState 2 1 10 4) false 3 (some 9) false 3 4
    (fun _ => 1) 5 (by decide) (fun h => absurd h (by decide))

/-- C6: a read on a file whose `i_block` is unallocated (given the data
model's invariant that such a file has size 0) or whose position is at or
past `i_size` returns 0 bytes, no error, and leaves the whole state —
the position cursor in particular — unchanged, whatever the copy
primitive would have done. -/
theorem c6_read_eof_returns_zero (s : OsfsState) (ctu_fail : Bool) (len : Nat)
    (hinv : s.i_block = 0 → s.i_size = 0) (h0 : 0 ≤ s.ppos)
    (h : s.i_block = 0 ∨ (s.i_size : Int) ≤ s.ppos) :
    osfs_read ctu_fail len s = (0, [], s) := by
  have hle : (s.i_size : Int) ≤ s.ppos := by
    rcases h with h | h
    · have := hinv h
      omega
    · exact h
  unfold osfs_read
  by_cases hb : s.i_blocks = 0
  · rw [if_pos hb]
  · rw [if_neg hb, if_pos hle]

/-- C6 (witness): `c6_read_eof_returns_zero` at the spec's read-past-end
example — an allocated file with `size = 3` read at `position = 3`. -/
theorem c6_read_eof_returns_zero_witness :
    osfs_read false 10 (mkState 5 1 3 3) = (0, [], mkState 5 1 3 3) :=
  c6_read_eof_returns_zero (mkState 5 1 3 3) false 10 (by decide) (by decide)
    (Or.inr (by decide))

/-- C7: a read on a file whose `i_blocks` gate is nonzero (the read
path's notion of an allocated block) with `position < i_size` and a
succeeding copy returns exactly `min len (i_size - position)` bytes —
never anything at or beyond the recorded size — namely the storage bytes
at offsets `position, …, position + min - 1` of the file's block, and
advances the cursor by that count. -/
theorem c7_read_clamps_to_size (s : OsfsState) (len : Nat)
    (hb : s.i_blocks ≠ 0) (h0 : 0 ≤ s.ppos) (hp : s.ppos < (s.i_size : Int))
    (hsz : s.i_size ≤ BLOCK_SIZE) (hu : s.ppos + (len : Int) < U64) :
    osfs_read false len s =
      (((min len (s.i_size - s.ppos.toNat) : Nat) : Int),
       (List.range (min len (s.i_size - s.ppos.toNat))).map
         (fun i => s.data (byte_off s.i_block s.ppos + (i : Int))),
       { s with
          ppos := s.ppos + ((min len (s.i_size - s.ppos.toNat) : Nat) : Int) }) := by
  have hszU : (s.i_size : Int) < U64 := by
    simp only [BLOCK_SIZE] at hsz
    simp only [U64]
    omega
  have hc : ((read_clamp s.i_size s.ppos len : Nat) : Int)
      = min (len : Int) ((s.i_size : Int) - s.ppos) :=
    read_clamp_eq _ _ _ h0 hp hszU hu
  have hcN : read_clamp s.i_size s.ppos len = min len (s.i_size - s.ppos.toNat) := by
    omega
  have hsmall : ((read_clamp s.i_size s.ppos len : Nat) : Int) <
      9223372036854775808 := by
    simp only [BLOCK_SIZE] at hsz
    omega
  unfold osfs_read
  rw [if_neg hb, if_neg (not_le.mpr hp), if_neg (by decide : ¬(false = true)),
    toSSize_small _ hsmall, hcN]

/-- C7 (witness): `c7_read_clamps_to_size` at the spec's example — an
allocated file with `size = 10` read at `position = 5` with
`len = 100` returns exactly 5 bytes. -/
theorem c7_read_clamps_to_size_witness :
    (osfs_read false 100 (mkState 1 1 10 5)).1 = 5 ∧
    (osfs_read false 100 (mkState 1 1 10 5)).2.1 = [0, 0, 0, 0, 0] := by
  have h := c7_read_clamps_to_size (mkState 1 1 10 5) 100 (by decide) (by decide)
    (by decide) (by decide) (by decide)
  rw [h]
  exact ⟨by decide, by decide⟩

/-- C8: a successful write whose request crosses the block boundary
(`0 ≤ position < BLOCK_SIZE < position + len`, no unsigned wrap) is
clipped: it returns `BLOCK_SIZE - position` bytes written, leaves the
size at exactly `BLOCK_SIZE` (given the invariant `size ≤ BLOCK_SIZE`
beforehand), and leaves the cursor at `BLOCK_SIZE`. -/
theorem c8_write_clips_to_block (s : OsfsState) (alloc : Option Nat)
    (t1 t2 : Int) (buf : Nat → Nat) (len : Nat)
    (h0 : 0 ≤ s.ppos) (hlt : s.ppos < (BLOCK_SIZE : Int))
    (hgt : (BLOCK_SIZE : Int) < s.ppos + (len : Int))
    (hu : s.ppos + (len : Int) < U64) (hsz : s.i_size ≤ BLOCK_SIZE) :
    (osfs_write alloc false t1 t2 buf len s).1 = (BLOCK_SIZE : Int) - s.ppos ∧
    (osfs_write alloc false t1 t2 buf len s).2.i_size = BLOCK_SIZE ∧
    (osfs_write alloc false t1 t2 buf len s).2.ppos = (BLOCK_SIZE : Int) := by
  have h := write_clip_eq s.ppos len h0 (le_of_lt hlt) hu
  have hsmall : ((write_clip s.ppos len : Nat) : Int) < 9223372036854775808 := by
    simp only [BLOCK_SIZE] at h
    omega
  rw [osfs_write_ok_fst, osfs_write_ok_size, osfs_write_ok_ppos,
    toSSize_small _ hsmall]
  simp only [BLOCK_SIZE, U32] at h hlt hgt hsz ⊢
  omega

/-- C8 (witness): `c8_write_clips_to_block` at the spec's example —
`BLOCK_SIZE = 4096`, `write(position = 4000, len = 200)` returns 96
bytes written and leaves `size = 4096`. -/
theorem c8_write_clips_to_block_witness :
    (osfs_write (some 9) false 3 3 (fun _ => 1) 200 (mkState 1 1 100 4000)).1 =
      96 ∧
    (osfs_write (some 9) false 3 3 (fun _ => 1) 200
      (mkState 1 1 100 4000)).2.i_size = BLOCK_SIZE := by
  have h := c8_write_clips_to_block (mkState 1 1 100 4000) (some 9) 3 3
    (fun _ => 1) 200 (by decide) (by decide) (by decide) (by decide) (by decide)
  exact ⟨by rw [h.1]; decide, h.2.1⟩

/-- C9: a successful write in the caller regime
`0 ≤ position ≤ BLOCK_SIZE` (no unsigned wrap) returns a nonnegative
written count and sets the size to
`max (previous size) (position + written count)` — so the size never
shrinks. -/
theorem c9_size_only_grows (s : OsfsState) (alloc : Option Nat)
    (t1 t2 : Int) (buf : Nat → Nat) (len : Nat)
    (h0 : 0 ≤ s.ppos) (hle : s.ppos ≤ (BLOCK_SIZE : Int))
    (hu : s.ppos + (len : Int) < U64) :
    0 ≤ (osfs_write alloc false t1 t2 buf len s).1 ∧
    (osfs_write alloc false t1 t2 buf len s).2.i_size =
      max s.i_size (s.ppos + (osfs_write alloc false t1 t2 buf len s).1).toNat ∧
    s.i_size ≤ (osfs_write alloc false t1 t2 buf len s).2.i_size := by
  have h := write_clip_eq s.ppos len h0 hle hu
  have hsmall : ((write_clip s.ppos len : Nat) : Int) < 9223372036854775808 := by
    simp only [BLOCK_SIZE] at h hle
    omega
  rw [osfs_write_ok_fst, osfs_write_ok_size, toSSize_small _ hsmall]
  simp only [BLOCK_SIZE, U32] at h hle ⊢
  omega

/-- C9 (witness): `c9_size_only_grows` at the spec's example — with
`size = 100`, a write at `position = 10` with `len = 5` keeps
`size = 100`. -/
theorem c9_size_only_grows_witness :
    0 ≤ (osfs_write (some 9) false 3 3 (fun _ => 1) 5 (mkState 1 1 100 10)).1 ∧
    (osfs_write (some 9) false 3 3 (fun _ => 1) 5 (mkState 1 1 100 10)).2.i_size =
      100 := by
  have h := c9_size_only_grows (mkState 1 1 100 10) (some 9) 3 3 (fun _ => 1) 5
    (by decide) (by decide) (by decide)
  refine ⟨h.1, ?_⟩
  rw [h.2.1]
  decide

/-- C10 (amended): a zero-length write at `0 ≤ position ≤ BLOCK_SIZE`
whose copy succeeds returns 0, leaves the cursor and the stored data
unchanged, refreshes `modified_at`/`changed_at` to the current time, and
sets the size to `max (previous size) position` — which equals the
previous size only when `position ≤ size` (the counterexample shows it
grows otherwise). -/
theorem c10_zero_length_write (s : OsfsState) (alloc : Option Nat)
    (t1 t2 : Int) (buf : Nat → Nat)
    (h0 : 0 ≤ s.ppos) (hle : s.ppos ≤ (BLOCK_SIZE : Int)) :
    (osfs_write alloc false t1 t2 buf 0 s).1 = 0 ∧
    (osfs_write alloc false t1 t2 buf 0 s).2.ppos = s.ppos ∧
    (osfs_write alloc false t1 t2 buf 0 s).2.data = s.data ∧
    (osfs_write alloc false t1 t2 buf 0 s).2.i_size =
      max s.i_size s.ppos.toNat ∧
    (osfs_write alloc false t1 t2 buf 0 s).2.i_mtime = t1 ∧
    (osfs_write alloc false t1 t2 buf 0 s).2.i_ctime = t1 := by
  have hu : s.ppos + ((0 : Nat) : Int) < U64 := by
    simp only [BLOCK_SIZE] at hle
    simp only [U64]
    omega
  have hc : write_clip s.ppos 0 = 0 := by
    have h := write_clip_eq s.ppos 0 h0 hle hu
    omega
  refine ⟨?_, ?_, ?_, ?_, osfs_write_ok_mtime .., osfs_write_ok_ctime ..⟩
  · rw [osfs_write_ok_fst, hc]
    decide
  · rw [osfs_write_ok_ppos, hc]
    simp
  · rw [osfs_write_ok_data, hc]
    funext o
    rw [if_neg]
    omega
  · rw [osfs_write_ok_size, hc]
    simp only [BLOCK_SIZE] at hle
    simp only [U32]
    omega

/-- C10 (witness): `c10_zero_length_write` on an allocated file with
`size = 10` and cursor 4: the zero-length write returns 0, keeps cursor
and size, and stamps the timestamps. -/
theorem c10_zero_length_write_witness :
    (osfs_write (some 9) false 3 3 (fun _ => 1) 0 (mkState 2 1 10 4)).1 = 0 ∧
    (osfs_write (some 9) false 3 3 (fun _ => 1) 0 (mkState 2 1 10 4)).2.ppos =
      (mkState 2 1 10 4).ppos ∧
    (osfs_write (some 9) false 3 3 (fun _ => 1) 0 (mkState 2 1 10 4)).2.i_size =
      10 ∧
    (osfs_write (some 9) false 3 3 (fun _ => 1) 0 (mkState 2 1 10 4)).2.i_mtime =
      3 := by
  have h := c10_zero_length_write (mkState 2 1 10 4) (some 9) 3 3 (fun _ => 1)
    (by decide) (by decide)
  refine ⟨h.1, h.2.1, ?_, h.2.2.2.2.1⟩
  rw [h.2.2.2.1]
  decide
